import Mathlib

/-!
Verification of the Artemis installer mockup (src/main.rs).

The file shallowly embeds the program: the styled-text helpers
(`center_line`, `center_text`), the spinner glyph lookup
(`spinner_animation`), the three screen builders, and the event loop of
`main` as a step function on the loop state `(step, spinner)`.
Rust `usize` values stay in `Nat`; `usize::saturating_sub` is `Nat`
subtraction; `str::len` is `String.utf8ByteSize`.
-/

/-- The subset of `ratatui::style::Color` values the program uses. -/
inductive Color
  | reset
  | white
  | gray
  | magenta
  | cyan
  | lightCyan
  | lightGreen
  deriving DecidableEq, Repr

/-- The emphasis modifiers the program uses: `Modifier::empty()` or
`Modifier::BOLD`. -/
inductive Modifier
  | empty
  | bold
  deriving DecidableEq, Repr

/-- `Style::default().fg(fg).add_modifier(modifier)`. -/
structure Style where
  fg : Color
  modifier : Modifier
  deriving DecidableEq, Repr

/-- A `ratatui` `Line`: one styled span holding a text string. -/
structure Line where
  text : String
  style : Style
  deriving DecidableEq, Repr

/-- A string of `n` spaces: the result of `format!("{:width$}", "")`
with `width = n`. -/
def padString (n : Nat) : String :=
  String.mk (List.replicate n ' ')

/-- The padding both helpers compute:
`(width.saturating_sub(text.len())) / 2`.  Rust `str::len` is the UTF-8
byte length, hence `String.utf8ByteSize`; `saturating_sub` is `Nat`
subtraction. -/
def padding (text : String) (width : Nat) : Nat :=
  (width - text.utf8ByteSize) / 2

/-- `center_line` from src/main.rs: prepend the padding spaces and style
the line. -/
def center_line (text : String) (width : Nat) (fg : Color) (modifier : Modifier) : Line :=
  { text := padString (padding text width) ++ text
    style := { fg := fg, modifier := modifier } }

/-- `center_text` from src/main.rs: a one-element vector holding the same
padded line, with a caller-supplied style. -/
def center_text (text : String) (width : Nat) (style : Style) : List Line :=
  [{ text := padString (padding text width) ++ text, style := style }]

/-- The fixed spinner glyph array `["|", "/", "-", "\\"]`. -/
def spinner_frames : List String :=
  ["|", "/", "-", "\\"]

/-- `spinner_animation` from src/main.rs indexes `spinner_frames` with no
bounds guard; the Rust indexing panics out of bounds, modelled as `none`. -/
def spinner_animation (frame : Nat) : Option String :=
  spinner_frames[frame]?

/-- A `ratatui` `Paragraph` with an all-sides border and a title. -/
structure Paragraph where
  lines : List Line
  title : String
  deriving DecidableEq, Repr

/-- `welcome_screen` from src/main.rs. -/
def welcome_screen (width : Nat) : Paragraph :=
  { lines :=
      [ center_line "Welcome to EndeavourOS!" width .magenta .bold
      , center_line "" width .reset .empty
      , center_line "This installer will guide you through the installation process."
          width .gray .empty
      , center_line "" width .reset .empty
      , center_line "Press 'Enter' to proceed to the next step." width .lightGreen .empty ]
    title := "🌟 Welcome" }

/-- `language_selection_screen` from src/main.rs. -/
def language_selection_screen (width : Nat) : Paragraph :=
  { lines :=
      [ center_line "Select your language:" width .cyan .bold
      , center_line "" width .reset .empty
      , center_line "→ English" width .lightGreen .empty
      , center_line "  Français" width .gray .empty
      , center_line "  Español" width .gray .empty
      , center_line "" width .reset .empty
      , center_line "Use arrow keys to navigate and 'Enter' to select." width .gray .empty ]
    title := "🌐 Language Selection" }

/-- `completion_screen` from src/main.rs. -/
def completion_screen (width : Nat) : Paragraph :=
  { lines :=
      [ center_line "Installation Complete! 🎉" width .lightGreen .bold
      , center_line "" width .reset .empty
      , center_line "You can now restart your system and enjoy EndeavourOS."
          width .gray .empty
      , center_line "" width .reset .empty
      , center_line "Press 'Q' to exit." width .lightCyan .empty ]
    title := "✅ Completion" }

/-- The three screens the content panel can show. -/
inductive Screen
  | Welcome
  | LanguageSelection
  | Completion
  deriving DecidableEq, Repr

/-- The `match step` in `main`'s draw closure: `0 => welcome_screen,
`1 => language_selection_screen`, `_ => completion_screen`. -/
def screenOf (step : Nat) : Screen :=
  match step with
  | 0 => Screen.Welcome
  | 1 => Screen.LanguageSelection
  | _ => Screen.Completion

/-- Rendering a screen at a width: dispatch to the screen builders. -/
def render (sc : Screen) (width : Nat) : Paragraph :=
  match sc with
  | Screen.Welcome => welcome_screen width
  | Screen.LanguageSelection => language_selection_screen width
  | Screen.Completion => completion_screen width

/-- The mutable loop-local state of `main`: `step` and `spinner`. -/
structure LoopState where
  step : Nat
  spinner : Nat
  deriving DecidableEq, Repr

/-- `let mut step = 0; let mut spinner = 0;`. -/
def initState : LoopState :=
  { step := 0, spinner := 0 }

/-- The content panel rendered for a loop state: a function of `step`
alone. -/
def contentFor (s : LoopState) (width : Nat) : Paragraph :=
  render (screenOf s.step) width

/-- The key events `main` distinguishes: `KeyCode::Char(c)`,
`KeyCode::Enter`, and every other key code collapsed to one case. -/
inductive KeyCode
  | char (c : Char)
  | enter
  | other
  deriving DecidableEq, Repr

/-- Whether the key matches the `KeyCode::Char('q') => break` arm. -/
def quits (k : KeyCode) : Bool :=
  match k with
  | KeyCode.char c => c = 'q'
  | _ => false

/-- The non-terminating arms of the `match key.code` dispatch:
`KeyCode::Enter` increments `step` mod 3, everything else is `_ => {}`. -/
def dispatch (s : LoopState) (k : KeyCode) : LoopState :=
  match k with
  | KeyCode.enter => { s with step := (s.step + 1) % 3 }
  | _ => s

/-- `spinner = (spinner + 1) % 4;` at the end of an iteration. -/
def advanceSpinner (s : LoopState) : LoopState :=
  { s with spinner := (s.spinner + 1) % 4 }

/-- One iteration of `main`'s loop after the event read: on `'q'` the
loop breaks with the state untouched (`true` = terminated); otherwise the
key is dispatched and then the spinner advances. -/
def loopIter (s : LoopState) (k : KeyCode) : Bool × LoopState :=
  if quits k then (true, s)
  else (false, advanceSpinner (dispatch s k))

/-- The state after feeding a sequence of key events to the loop started
at `initState`. -/
def run (ks : List KeyCode) : LoopState :=
  ks.foldl (fun s k => (loopIter s k).2) initState

/-- Character-count padding: what the helpers would compute if Rust
`str::len` counted characters instead of UTF-8 bytes. -/
def charPadding (text : String) (width : Nat) : Nat :=
  (width - text.length) / 2

/-! ### Helper lemmas -/

theorem dispatch_spinner (s : LoopState) (k : KeyCode) :
    (dispatch s k).spinner = s.spinner := by
  cases k <;> rfl

theorem loopIter_continue (s : LoopState) (k : KeyCode) (hk : quits k = false) :
    loopIter s k = (false, advanceSpinner (dispatch s k)) := by
  simp [loopIter, hk]

theorem loopIter_spinner (s : LoopState) (k : KeyCode) (hk : quits k = false) :
    (loopIter s k).2.spinner = (s.spinner + 1) % 4 := by
  simp [loopIter_continue s k hk, advanceSpinner, dispatch_spinner]

theorem foldl_spinner_lt (ks : List KeyCode) (s : LoopState) (h : s.spinner < 4) :
    (ks.foldl (fun s k => (loopIter s k).2) s).spinner < 4 := by
  induction ks generalizing s with
  | nil => exact h
  | cons k ks ih =>
      apply ih
      by_cases hq : quits k
      · simpa [loopIter, hq] using h
      · rw [loopIter_spinner _ _ (by simpa using hq)]
        omega

theorem run_spinner_lt (ks : List KeyCode) : (run ks).spinner < 4 :=
  foldl_spinner_lt ks initState (by decide)

theorem spinner_animation_of_lt (n : Nat) (h : n < 4) :
    spinner_animation n ≠ none := by
  interval_cases n <;> decide

/-! ### Claim theorems -/

/-- C1: for `text.utf8ByteSize ≤ width`, `center_line` produces exactly
`⌊(width - len(text)) / 2⌋` leading spaces (the floor over the integers,
where the subtraction cannot go negative), applied as leading spaces
only: the characters after the padding are the original text unmodified,
with no trailing padding, and the requested style is applied as given. -/
theorem center_line_centers (text : String) (width : Nat) (fg : Color) (m : Modifier)
    (h : text.utf8ByteSize ≤ width) :
    (padding text width : Int) = ((width : Int) - (text.utf8ByteSize : Int)) / 2 ∧
    (center_line text width fg m).text.data
      = List.replicate (padding text width) ' ' ++ text.data ∧
    (center_line text width fg m).text.data.take (padding text width)
      = List.replicate (padding text width) ' ' ∧
    (center_line text width fg m).text.data.drop (padding text width) = text.data ∧
    (center_line text width fg m).style = { fg := fg, modifier := m } := by
  have hd : (center_line text width fg m).text.data
      = List.replicate (padding text width) ' ' ++ text.data := by
    simp [center_line, padString, String.data_append]
  refine ⟨by unfold padding; omega, hd, ?_, ?_, rfl⟩
  · rw [hd]; simp
  · rw [hd]; simp

theorem center_line_centers_witness :
    (padding "ab" 11 : Int) = (((11 : Nat) : Int) - (("ab".utf8ByteSize : Nat) : Int)) / 2 ∧
    (center_line "ab" 11 Color.gray Modifier.empty).text.data
      = List.replicate (padding "ab" 11) ' ' ++ "ab".data ∧
    (center_line "ab" 11 Color.gray Modifier.empty).text.data.take (padding "ab" 11)
      = List.replicate (padding "ab" 11) ' ' ∧
    (center_line "ab" 11 Color.gray Modifier.empty).text.data.drop (padding "ab" 11)
      = "ab".data ∧
    (center_line "ab" 11 Color.gray Modifier.empty).style
      = { fg := Color.gray, modifier := Modifier.empty } :=
  center_line_centers "ab" 11 Color.gray Modifier.empty (by decide)

/-- C2: for any starting step in `{0,1,2}`, an Enter event sets `step` to
`(step + 1) % 3` and leaves the spinner phase unchanged; three
consecutive Enter iterations starting at `step = 0` return `step` to `0`. -/
theorem enter_cycles_step (s : LoopState) (sp : Nat) (h : s.step < 3) :
    (dispatch s KeyCode.enter).step = (s.step + 1) % 3 ∧
    (dispatch s KeyCode.enter).spinner = s.spinner ∧
    (loopIter (loopIter (loopIter { step := 0, spinner := sp } KeyCode.enter).2
        KeyCode.enter).2 KeyCode.enter).2.step = 0 := by
  refine ⟨rfl, rfl, ?_⟩
  simp [loopIter, quits, dispatch, advanceSpinner]

theorem enter_cycles_step_witness :
    (dispatch initState KeyCode.enter).step = (initState.step + 1) % 3 ∧
    (dispatch initState KeyCode.enter).spinner = initState.spinner ∧
    (loopIter (loopIter (loopIter { step := 0, spinner := 0 } KeyCode.enter).2
        KeyCode.enter).2 KeyCode.enter).2.step = 0 :=
  enter_cycles_step initState 0 (by decide)

/-- C3: a lowercase `'q'` terminates the loop at any state and leaves the
whole state (both `step` and `spinner`) exactly as it was; an uppercase
`'Q'` does not match the quit arm and does not terminate. -/
theorem quit_terminates (s : LoopState) :
    loopIter s (KeyCode.char 'q') = (true, s) ∧
    quits (KeyCode.char 'Q') = false ∧
    (loopIter s (KeyCode.char 'Q')).1 = false := by
  refine ⟨?_, by decide, ?_⟩ <;> simp [loopIter, quits]

/-- C4: each loop transition preserves `step < 3` and `spinner < 4`, the
initial state satisfies the invariant, and the content panel is a
function of `step` alone (states agreeing on `step` render the same
screen). -/
theorem loop_invariant (s t : LoopState) (k : KeyCode) (w : Nat)
    (hs : s.step < 3) (hp : s.spinner < 4) (hts : t.step = s.step) :
    (loopIter s k).2.step < 3 ∧ (loopIter s k).2.spinner < 4 ∧
    initState.step = 0 ∧ initState.spinner = 0 ∧
    contentFor t w = contentFor s w := by
  refine ⟨?_, ?_, rfl, rfl, ?_⟩
  · by_cases hq : quits k
    · simpa [loopIter, hq] using hs
    · rw [loopIter_continue _ _ (by simpa using hq)]
      cases k with
      | enter => simp [dispatch, advanceSpinner]; omega
      | char c => simpa [dispatch, advanceSpinner] using hs
      | other => simpa [dispatch, advanceSpinner] using hs
  · by_cases hq : quits k
    · simpa [loopIter, hq] using hp
    · rw [loopIter_spinner _ _ (by simpa using hq)]
      omega
  · simp [contentFor, hts]

theorem loop_invariant_witness :
    (loopIter initState KeyCode.enter).2.step < 3 ∧
    (loopIter initState KeyCode.enter).2.spinner < 4 ∧
    initState.step = 0 ∧ initState.spinner = 0 ∧
    contentFor initState 80 = contentFor initState 80 :=
  loop_invariant initState initState KeyCode.enter 80 (by decide) (by decide) rfl

/-- C5: when the text is longer than the width (in bytes), the padding is
exactly `0` — the saturating subtraction never wraps — and both
`center_line` and `center_text` return the text unpadded rather than
failing. -/
theorem overlong_text_clamps (text : String) (width : Nat) (fg : Color) (m : Modifier)
    (st : Style) (h : width < text.utf8ByteSize) :
    padding text width = 0 ∧
    (center_line text width fg m).text = text ∧
    center_text text width st = [{ text := text, style := st }] := by
  have h0 : padding text width = 0 := by unfold padding; omega
  have he : padString (padding text width) ++ text = text := by
    rw [h0]; exact String.empty_append text
  refine ⟨h0, ?_, ?_⟩
  · have hc : (center_line text width fg m).text = padString (padding text width) ++ text := rfl
    rw [hc, he]
  · have hc : center_text text width st
        = [{ text := padString (padding text width) ++ text, style := st }] := rfl
    rw [hc, he]

theorem overlong_text_clamps_witness :
    padding "hello" 2 = 0 ∧
    (center_line "hello" 2 Color.gray Modifier.empty).text = "hello" ∧
    center_text "hello" 2 { fg := Color.gray, modifier := Modifier.empty }
      = [{ text := "hello", style := { fg := Color.gray, modifier := Modifier.empty } }] :=
  overlong_text_clamps "hello" 2 Color.gray Modifier.empty
    { fg := Color.gray, modifier := Modifier.empty } (by decide)

/-- C6: every iteration whose event is not `'q'` ends by setting the
spinner phase to `(phase + 1) % 4` whatever the key was; keys other than
Enter and `'q'` change nothing at dispatch; starting from phase `0`, the
phases observed over five event-driven ticks are `0, 1, 2, 3, 0`. -/
theorem spinner_advances (s : LoopState) (k k1 k2 k3 k4 : KeyCode) (c : Char)
    (hk : quits k = false) (hk1 : quits k1 = false) (hk2 : quits k2 = false)
    (hk3 : quits k3 = false) (hk4 : quits k4 = false)
    (hc : c ≠ 'q') (h0 : s.spinner = 0) :
    (loopIter s k).1 = false ∧
    (loopIter s k).2.spinner = (s.spinner + 1) % 4 ∧
    dispatch s (KeyCode.char c) = s ∧
    dispatch s KeyCode.other = s ∧
    [s.spinner,
     (loopIter s k1).2.spinner,
     (loopIter (loopIter s k1).2 k2).2.spinner,
     (loopIter (loopIter (loopIter s k1).2 k2).2 k3).2.spinner,
     (loopIter (loopIter (loopIter (loopIter s k1).2 k2).2 k3).2 k4).2.spinner]
      = [0, 1, 2, 3, 0] := by
  refine ⟨by rw [loopIter_continue _ _ hk], loopIter_spinner _ _ hk, rfl, rfl, ?_⟩
  rw [loopIter_spinner _ _ hk4, loopIter_spinner _ _ hk3, loopIter_spinner _ _ hk2,
    loopIter_spinner _ _ hk1, h0]

theorem spinner_advances_witness :
    (loopIter initState KeyCode.other).1 = false ∧
    (loopIter initState KeyCode.other).2.spinner = (initState.spinner + 1) % 4 ∧
    dispatch initState (KeyCode.char 'x') = initState ∧
    dispatch initState KeyCode.other = initState ∧
    [initState.spinner,
     (loopIter initState KeyCode.other).2.spinner,
     (loopIter (loopIter initState KeyCode.other).2 KeyCode.other).2.spinner,
     (loopIter (loopIter (loopIter initState KeyCode.other).2 KeyCode.other).2
        KeyCode.other).2.spinner,
     (loopIter (loopIter (loopIter (loopIter initState KeyCode.other).2 KeyCode.other).2
        KeyCode.other).2 KeyCode.other).2.spinner]
      = [0, 1, 2, 3, 0] :=
  spinner_advances initState KeyCode.other KeyCode.other KeyCode.other KeyCode.other
    KeyCode.other 'x' rfl rfl rfl rfl rfl (by decide) rfl

/-- C7: for `step < 3` the draw closure selects exactly one of the three
screens, and the selection agrees with `step % 3` in every case; screen
rendering is deterministic — two renders with identical arguments are
equal. -/
theorem screen_of_step (step : Nat) (sc : Screen) (w : Nat) (h : step < 3) :
    (screenOf step = Screen.Welcome ↔ step % 3 = 0) ∧
    (screenOf step = Screen.LanguageSelection ↔ step % 3 = 1) ∧
    (screenOf step = Screen.Completion ↔ step % 3 = 2) ∧
    screenOf step = screenOf (step % 3) ∧
    render sc w = render sc w := by
  interval_cases step <;> exact ⟨by decide, by decide, by decide, rfl, rfl⟩

theorem screen_of_step_witness :
    (screenOf 1 = Screen.Welcome ↔ 1 % 3 = 0) ∧
    (screenOf 1 = Screen.LanguageSelection ↔ 1 % 3 = 1) ∧
    (screenOf 1 = Screen.Completion ↔ 1 % 3 = 2) ∧
    screenOf 1 = screenOf (1 % 3) ∧
    render Screen.Welcome 80 = render Screen.Welcome 80 :=
  screen_of_step 1 Screen.Welcome 80 (by decide)

/-- C8: whatever key events led to the language-selection screen, it has
exactly seven lines; the first option line is "→ English" with the
highlight color, and the other two options are rendered dim — the marked
option is always English. -/
theorem language_screen_marks_english (ks : List KeyCode) (w : Nat)
    (h : screenOf (run ks).step = Screen.LanguageSelection) :
    contentFor (run ks) w = language_selection_screen w ∧
    (language_selection_screen w).lines.length = 7 ∧
    (language_selection_screen w).lines[2]?
      = some { text := padString (padding "→ English" w) ++ "→ English"
               style := { fg := Color.lightGreen, modifier := Modifier.empty } } ∧
    (language_selection_screen w).lines[3]?
      = some { text := padString (padding "  Français" w) ++ "  Français"
               style := { fg := Color.gray, modifier := Modifier.empty } } ∧
    (language_selection_screen w).lines[4]?
      = some { text := padString (padding "  Español" w) ++ "  Español"
               style := { fg := Color.gray, modifier := Modifier.empty } } := by
  refine ⟨?_, rfl, rfl, rfl, rfl⟩
  simp [contentFor, h, render]

theorem language_screen_marks_english_witness :
    contentFor (run [KeyCode.enter]) 80 = language_selection_screen 80 ∧
    (language_selection_screen 80).lines.length = 7 ∧
    (language_selection_screen 80).lines[2]?
      = some { text := padString (padding "→ English" 80) ++ "→ English"
               style := { fg := Color.lightGreen, modifier := Modifier.empty } } ∧
    (language_selection_screen 80).lines[3]?
      = some { text := padString (padding "  Français" 80) ++ "  Français"
               style := { fg := Color.gray, modifier := Modifier.empty } } ∧
    (language_selection_screen 80).lines[4]?
      = some { text := padString (padding "  Español" 80) ++ "  Español"
               style := { fg := Color.gray, modifier := Modifier.empty } } :=
  language_screen_marks_english [KeyCode.enter] 80 (by decide)

/-- C9 counterexample: for `"  Français"` (10 characters, 11 UTF-8 bytes)
at the large width `111`, the byte-length padding equals the
character-count padding, so the byte-based padding is not strictly
smaller for every multi-byte text once the width is large: strictness
fails at infinitely many widths when the lengths differ by exactly 1. -/
theorem byte_vs_char_padding_not_strict :
    "  Français".length < "  Français".utf8ByteSize ∧
    "  Français".utf8ByteSize ≤ 111 ∧
    padding "  Français" 111 = charPadding "  Français" 111 := by
  decide

/-- C9 (amended): the padding uses the UTF-8 byte length of the text
(Rust `str::len`), giving `(width - byteLength) / 2` leading spaces; for
a text whose byte length exceeds its character count, this padding is
strictly smaller than the character-count-based padding whenever the
text fits (`byteLength ≤ width`) and either the two lengths differ by at
least `2` or `width - byteLength` is odd. -/
theorem byte_length_padding (text : String) (width : Nat) (fg : Color) (m : Modifier)
    (hlt : text.length < text.utf8ByteSize) (hw : text.utf8ByteSize ≤ width)
    (hgap : text.length + 2 ≤ text.utf8ByteSize ∨ (width - text.utf8ByteSize) % 2 = 1) :
    (center_line text width fg m).text.data
      = List.replicate ((width - text.utf8ByteSize) / 2) ' ' ++ text.data ∧
    padding text width < charPadding text width := by
  constructor
  · simp [center_line, padString, padding, String.data_append]
  · unfold padding charPadding
    omega

theorem byte_length_padding_witness :
    (center_line "→ English" 30 Color.lightGreen Modifier.empty).text.data
      = List.replicate ((30 - "→ English".utf8ByteSize) / 2) ' ' ++ "→ English".data ∧
    padding "→ English" 30 < charPadding "→ English" 30 :=
  byte_length_padding "→ English" 30 Color.lightGreen Modifier.empty
    (by decide) (by decide) (Or.inl (by decide))

/-- C10: `spinner_animation` indexes the four-glyph array without a
bounds guard, so it fails for every frame `≥ 4`; for frames `0..3` it
returns the corresponding glyph, and at the loop's only call site the
spinner invariant keeps the frame below `4`, making the failure branch
unreachable. -/
theorem spinner_animation_partial_oob (frame : Nat) (ks : List KeyCode) (h : 4 ≤ frame) :
    spinner_animation frame = none ∧
    spinner_animation (run ks).spinner ≠ none ∧
    spinner_animation 0 = some "|" ∧
    spinner_animation 1 = some "/" ∧
    spinner_animation 2 = some "-" ∧
    spinner_animation 3 = some "\\" := by
  refine ⟨?_, spinner_animation_of_lt _ (run_spinner_lt ks), rfl, rfl, rfl, rfl⟩
  show spinner_frames[frame]? = none
  rw [List.getElem?_eq_none]
  simpa [spinner_frames] using h

theorem spinner_animation_partial_oob_witness :
    spinner_animation 4 = none ∧
    spinner_animation (run []).spinner ≠ none ∧
    spinner_animation 0 = some "|" ∧
    spinner_animation 1 = some "/" ∧
    spinner_animation 2 = some "-" ∧
    spinner_animation 3 = some "\\" :=
  spinner_animation_partial_oob 4 [] (by decide)
